import Mathlib

/-!
Shallow embedding of `src/input_processor_threshold_temp_layer.c`, a ZMK
input processor that activates a temporary keymap layer once accumulated
pointer movement crosses a threshold, and deactivates it on an inactivity
timeout or on a (non-excluded) key press.

Machine integers are modelled as `Int`/`Nat` with the C casts made
explicit where they matter (`(uint8_t)param1`, `(int16_t)param2`,
`(int)param3`).  The function-static `pending_dx`/`pending_dy` buffer of
`threshold_temp_layer_handle_event` is modelled as instance state (one
device instance exists, so the two views coincide).  The arming state of
each slot's `k_work_delayable` is modelled by a boolean `timerPending`
field: `k_work_reschedule` sets it, `k_work_cancel_delayable` clears it,
and a timer fire consumes it before running the work handler.
-/

def MAX_LAYERS : Nat := 16

/-- Linux input event type `EV_REL`. -/
def INPUT_EV_REL : Nat := 2

/-- Linux input event code `REL_X`. -/
def INPUT_REL_X : Nat := 0

/-- Linux input event code `REL_Y`. -/
def INPUT_REL_Y : Nat := 1

/-- The C cast `(int16_t)` applied to a `uint32_t` value. -/
def toSigned16 (n : Nat) : Int :=
  if n % 65536 < 32768 then ((n % 65536 : Nat) : Int)
  else ((n % 65536 : Nat) : Int) - 65536

/-- The C cast `(int)` (32-bit) applied to a `uint32_t` value. -/
def toSigned32 (n : Nat) : Int :=
  if n % 4294967296 < 2147483648 then ((n % 4294967296 : Nat) : Int)
  else ((n % 4294967296 : Nat) : Int) - 4294967296

/-- Outbound side effects: calls to the layer-state collaborator
(`zmk_keymap_layer_activate` / `zmk_keymap_layer_deactivate`). -/
inductive Effect where
  | activate (layer : Nat)
  | deactivate (layer : Nat)
deriving Repr, DecidableEq

/-- `struct threshold_temp_layer_config`: per-instance configuration.
`require_prior_idle_ms` is an `int16_t`; `excluded_positions` the
device-tree list of excluded key positions. -/
structure Config where
  require_prior_idle_ms : Int
  excluded_positions : List Nat
deriving Repr, DecidableEq

/-- `struct threshold_temp_layer_layer_data`: per-slot state.
`timerPending` models whether the slot's `disable_work` delayable work
item is currently scheduled. -/
structure LayerData where
  accumulated_distance : Int
  active : Bool
  timerPending : Bool
deriving Repr, DecidableEq

/-- `struct threshold_temp_layer_data` together with the function-static
`pending_dx`/`pending_dy` buffer of the event handler. -/
structure DeviceData where
  last_tap_time : Int
  layers : Nat → LayerData
  pending_dx : Int
  pending_dy : Int

/-- Point update of the slot array. -/
def setLayer (f : Nat → LayerData) (i : Nat) (v : LayerData) : Nat → LayerData :=
  fun j => if j = i then v else f j

/-- `calculate_distance`: approximate magnitude
`max(|dx|,|dy|) + (min(|dx|,|dy|) >> 1)`.  The shift operand is
non-negative, so `>> 1` is division by two. -/
def calculate_distance (dx dy : Int) : Int :=
  let abs_dx := |dx|
  let abs_dy := |dy|
  let max_val := if abs_dx > abs_dy then abs_dx else abs_dy
  let min_val := if abs_dx > abs_dy then abs_dy else abs_dx
  max_val + min_val / 2

/-- `layer_disable_work_handler`: the body of the timeout work item for
slot `i`.  The C code recovers `i` by scanning the slot array for the
address of the work item's container; here the index is passed directly.
If the slot is still active it is deactivated, its accumulator reset,
and `deactivate(i)` emitted; otherwise the handler is a no-op. -/
def layer_disable_work_handler (d : DeviceData) (i : Nat) :
    DeviceData × List Effect :=
  if i < MAX_LAYERS ∧ (d.layers i).active = true then
    let ld := { d.layers i with active := false, accumulated_distance := 0 }
    ({ d with layers := setLayer d.layers i ld }, [Effect.deactivate i])
  else (d, [])

/-- `struct input_event`: the fields the processor reads. -/
structure InputEvent where
  type : Nat
  code : Nat
  value : Int
deriving Repr, DecidableEq

/-- `threshold_temp_layer_handle_event`: the motion-sample handler.
`param1`/`param2`/`param3` are the raw `uint32_t` runtime parameters
(layer, timeout ms, activation threshold); `now` is `k_uptime_get()`. -/
def threshold_temp_layer_handle_event (cfg : Config) (d : DeviceData)
    (event : InputEvent) (param1 param2 param3 : Nat) (now : Int) :
    DeviceData × List Effect :=
  let layer := param1 % 256
  let timeout := toSigned16 param2
  let activation_threshold := toSigned32 param3
  if MAX_LAYERS ≤ layer then (d, [])
  else
    let layer_data := d.layers layer
    if layer_data.active = false ∧ 0 < cfg.require_prior_idle_ms ∧
        now - d.last_tap_time < cfg.require_prior_idle_ms then
      (d, [])
    else if event.type = INPUT_EV_REL ∧
        (event.code = INPUT_REL_X ∨ event.code = INPUT_REL_Y) then
      let pdx := if event.code = INPUT_REL_X then event.value else d.pending_dx
      let pdy := if event.code = INPUT_REL_Y then event.value else d.pending_dy
      let step1 :=
        if layer_data.active = false then
          let distance := calculate_distance pdx pdy
          let acc := layer_data.accumulated_distance + distance
          if activation_threshold ≤ acc then
            ({ layer_data with accumulated_distance := acc, active := true },
             [Effect.activate layer])
          else
            ({ layer_data with accumulated_distance := acc }, ([] : List Effect))
        else (layer_data, ([] : List Effect))
      let ld :=
        if step1.1.active = true ∧ 0 < timeout then
          { step1.1 with timerPending := true }
        else step1.1
      ({ d with layers := setLayer d.layers layer ld,
                pending_dx := 0, pending_dy := 0 },
       step1.2)
    else (d, [])

/-- `handle_position_state_changed`: the key-transition listener.
`position` is `ev->position`, `pressed` is `ev->state`, `now` is
`k_uptime_get()`. -/
def handle_position_state_changed (cfg : Config) (d : DeviceData)
    (position : Nat) (pressed : Bool) (now : Int) :
    DeviceData × List Effect :=
  if position ∈ cfg.excluded_positions then (d, [])
  else if pressed then
    ({ last_tap_time := now,
       layers := fun j =>
         if j < MAX_LAYERS ∧ (d.layers j).active = true then
           { accumulated_distance := 0, active := false, timerPending := false }
         else d.layers j,
       pending_dx := d.pending_dx,
       pending_dy := d.pending_dy },
     (List.range MAX_LAYERS).filterMap (fun i =>
       if (d.layers i).active = true then some (Effect.deactivate i) else none))
  else (d, [])

/-- `threshold_temp_layer_init`: all slots inactive with zero
accumulator, no timers armed, idle clock and pending buffer zero. -/
def threshold_temp_layer_init : DeviceData :=
  { last_tap_time := 0,
    layers := fun _ =>
      { accumulated_distance := 0, active := false, timerPending := false },
    pending_dx := 0,
    pending_dy := 0 }

/-- A timer fire for slot `i`: only an armed timer can fire; firing
consumes the arming and then runs `layer_disable_work_handler`.  An
unarmed timer has nothing to fire, so that case is a no-op. -/
def fireTimer (d : DeviceData) (i : Nat) : DeviceData × List Effect :=
  if (d.layers i).timerPending = true then
    let ld := { d.layers i with timerPending := false }
    layer_disable_work_handler { d with layers := setLayer d.layers i ld } i
  else (d, [])

/-- The three kinds of operations that drive the state machine. -/
inductive Op where
  | motion (param1 : Nat) (event : InputEvent) (param3 : Nat) (now : Int)
  | key (position : Nat) (pressed : Bool) (now : Int)
  | fire (slot : Nat)

/-- One step of the state machine.  `tparam` gives each slot binding its
(static) raw `param2` timeout value. -/
def stepOp (cfg : Config) (tparam : Nat → Nat) (d : DeviceData) :
    Op → DeviceData × List Effect
  | Op.motion p1 ev p3 now =>
      threshold_temp_layer_handle_event cfg d ev p1 (tparam (p1 % 256)) p3 now
  | Op.key pos pr now => handle_position_state_changed cfg d pos pr now
  | Op.fire i => fireTimer d i

/-- Run a sequence of operations, discarding effects. -/
def runOps (cfg : Config) (tparam : Nat → Nat) (d : DeviceData)
    (ops : List Op) : DeviceData :=
  ops.foldl (fun d op => (stepOp cfg tparam d op).1) d

/-- A per-axis motion sample: axis code, signed delta, arrival time. -/
structure Sample where
  code : Nat
  value : Int
  now : Int

/-- The `input_event` carried by a motion sample. -/
def sampleEvent (s : Sample) : InputEvent :=
  { type := INPUT_EV_REL, code := s.code, value := s.value }

/-- Deliver one motion sample to slot `l` (raw params `l`, `p2`, `p3`). -/
def motionStep (cfg : Config) (l p2 p3 : Nat) (d : DeviceData) (s : Sample) :
    DeviceData × List Effect :=
  threshold_temp_layer_handle_event cfg d (sampleEvent s) l p2 p3 s.now

/-- Deliver a list of motion samples to slot `l`, discarding effects. -/
def runSamples (cfg : Config) (l p2 p3 : Nat) (d : DeviceData)
    (samples : List Sample) : DeviceData :=
  samples.foldl (fun d s => (motionStep cfg l p2 p3 d s).1) d

/-- The approximate magnitude a sample contributes: the `calculate_distance`
of the pending buffer as this sample's call sees it (its own axis holds
the delta, the other axis holds 0). -/
def sampleMag (s : Sample) : Int :=
  calculate_distance (if s.code = INPUT_REL_X then s.value else 0)
                     (if s.code = INPUT_REL_Y then s.value else 0)

/-- Sum of the approximate magnitudes of the first `j` samples. -/
def magSum (samples : List Sample) (j : Nat) : Int :=
  ((samples.take j).map sampleMag).sum

/-- The running magnitude sum has reached threshold `T` within the first
`k` samples. -/
def reachedBy (samples : List Sample) (T : Int) (k : Nat) : Prop :=
  ∃ j, 1 ≤ j ∧ j ≤ k ∧ T ≤ magSum samples j

/-- The device state after a relative-motion call on slot `l` that left
the slot holding `ld`: the slot array is updated pointwise and the
pending-axis buffer is cleared. -/
def withSlot (d : DeviceData) (l : Nat) (ld : LayerData) : DeviceData :=
  { d with layers := setLayer d.layers l ld, pending_dx := 0, pending_dy := 0 }

/-- The timer-rearm tail of the motion handler: an active slot with a
positive timeout gets its `disable_work` rescheduled. -/
def rearm (p2 : Nat) (ld : LayerData) : LayerData :=
  if ld.active = true ∧ 0 < toSigned16 p2 then { ld with timerPending := true }
  else ld

/-- The accumulate-and-maybe-activate core of the motion handler's REL
branch, acting on one slot: threshold `T`, incoming magnitude `m`. -/
def accumStep (T : Int) (ld : LayerData) (m : Int) : LayerData :=
  if ld.active = false then
    if T ≤ ld.accumulated_distance + m then
      { ld with accumulated_distance := ld.accumulated_distance + m,
                active := true }
    else { ld with accumulated_distance := ld.accumulated_distance + m }
  else ld

/-- How one operation may change one slot: unchanged; torn down from an
active state (reset to zero); accumulator and activity both preserved
(only the timer changed); or, from an inactive state, the accumulator
grown by a non-negative amount. -/
def slotEvolution (old new : LayerData) : Prop :=
  new = old ∨
  (old.active = true ∧
    new = { accumulated_distance := 0, active := false, timerPending := false }) ∨
  (new.accumulated_distance = old.accumulated_distance ∧
    new.active = old.active) ∨
  (old.active = false ∧
    ∃ m, 0 ≤ m ∧ new.accumulated_distance = old.accumulated_distance + m)

/-- C9's invariant: a slot's timer is armed exactly when the slot is
active and its binding's timeout parameter is positive. -/
def TimerInv (tparam : Nat → Nat) (d : DeviceData) : Prop :=
  ∀ i, i < MAX_LAYERS →
    ((d.layers i).timerPending = true ↔
      ((d.layers i).active = true ∧ 0 < toSigned16 (tparam i)))

/-! ### Basic lemmas -/

theorem calculate_distance_nonneg (dx dy : Int) : 0 ≤ calculate_distance dx dy := by
  simp only [calculate_distance]
  have hdx := abs_nonneg dx
  have hdy := abs_nonneg dy
  have h2x : 0 ≤ |dx| / 2 := Int.ediv_nonneg hdx (by norm_num)
  have h2y : 0 ≤ |dy| / 2 := Int.ediv_nonneg hdy (by norm_num)
  split
  · exact add_nonneg hdx h2y
  · exact add_nonneg hdy h2x

theorem calculate_distance_x (v : Int) : calculate_distance v 0 = |v| := by
  simp only [calculate_distance, abs_zero]
  split_ifs with h
  · simp
  · have hz : |v| = 0 := le_antisymm (not_lt.mp h) (abs_nonneg v)
    simp [hz]

theorem calculate_distance_y (v : Int) : calculate_distance 0 v = |v| := by
  simp only [calculate_distance, abs_zero]
  split_ifs with h
  · exact absurd h (not_lt.mpr (abs_nonneg v))
  · simp

/-! ### Witness fixtures -/

/-- A sample configuration used by witnesses: 200 ms idle requirement,
positions 5 and 9 excluded. -/
def demoConfig : Config :=
  { require_prior_idle_ms := 200, excluded_positions := [5, 9] }

/-- A sample device state used by witnesses: slots 0 and 3 active with
armed timers, every other slot inactive. -/
def demoState : DeviceData :=
  { last_tap_time := 100,
    layers := fun j =>
      if j = 0 then { accumulated_distance := 42, active := true, timerPending := true }
      else if j = 3 then { accumulated_distance := 7, active := true, timerPending := true }
      else { accumulated_distance := 11, active := false, timerPending := false },
    pending_dx := 0,
    pending_dy := 0 }

/-! ### C2: the approximate-magnitude formula -/

/-- C2: for every pair of signed deltas `(dx, dy)`, `calculate_distance`
returns `max(|dx|, |dy|) + floor(min(|dx|, |dy|) / 2)`; in particular it
returns 5 for (3, 4), 8 for (8, 0), and 7 for (-6, 2). -/
theorem calculate_distance_spec :
    (∀ dx dy : Int,
      calculate_distance dx dy = max |dx| |dy| + min |dx| |dy| / 2) ∧
    calculate_distance 3 4 = 5 ∧
    calculate_distance 8 0 = 8 ∧
    calculate_distance (-6) 2 = 7 := by
  refine ⟨fun dx dy => ?_, by decide, by decide, by decide⟩
  simp only [calculate_distance]
  split_ifs with h
  · rw [max_eq_left (le_of_lt h), min_eq_right (le_of_lt h)]
  · rw [max_eq_right (not_lt.mp h), min_eq_left (not_lt.mp h)]

/-! ### C4: invalid layer index is a total no-op -/

/-- The handler's early return on an out-of-range layer index. -/
theorem handle_event_bad_layer (cfg : Config) (d : DeviceData)
    (event : InputEvent) (param1 param2 param3 : Nat) (now : Int)
    (h : MAX_LAYERS ≤ param1 % 256) :
    threshold_temp_layer_handle_event cfg d event param1 param2 param3 now =
      (d, []) := by
  simp only [threshold_temp_layer_handle_event]
  rw [if_pos h]

/-- C4: a motion-sample call whose (uint8-cast) layer parameter names a
slot at or beyond `MAX_LAYERS` is a no-op: the device state is returned
unchanged and no effect is emitted. -/
theorem handle_event_invalid_layer (cfg : Config) (d : DeviceData)
    (event : InputEvent) (param1 param2 param3 : Nat) (now : Int)
    (h : MAX_LAYERS ≤ param1 % 256) :
    threshold_temp_layer_handle_event cfg d event param1 param2 param3 now =
      (d, []) :=
  handle_event_bad_layer cfg d event param1 param2 param3 now h

/-- Witness for C4 at layer parameter 17. -/
theorem handle_event_invalid_layer_witness :
    threshold_temp_layer_handle_event demoConfig demoState
      { type := 2, code := 0, value := 60 } 17 500 100 1000 = (demoState, []) :=
  handle_event_invalid_layer demoConfig demoState
    { type := 2, code := 0, value := 60 } 17 500 100 1000 (by decide)

/-! ### C6: excluded positions are ignored entirely -/

/-- The key listener's early return on an excluded position. -/
theorem excluded_noop (cfg : Config) (d : DeviceData)
    (position : Nat) (pressed : Bool) (now : Int)
    (h : position ∈ cfg.excluded_positions) :
    handle_position_state_changed cfg d position pressed now = (d, []) := by
  simp only [handle_position_state_changed]
  rw [if_pos h]

/-- C6: a key event whose position is in `excludedPositions` has no
effect at all, regardless of the pressed flag and of which slots are
active: the state (idle clock included) is unchanged and nothing is
emitted. -/
theorem excluded_position_no_effect (cfg : Config) (d : DeviceData)
    (position : Nat) (pressed : Bool) (now : Int)
    (h : position ∈ cfg.excluded_positions) :
    handle_position_state_changed cfg d position pressed now = (d, []) :=
  excluded_noop cfg d position pressed now h

/-- Witness for C6: pressing excluded position 5 while slots 0 and 3 are
active changes nothing. -/
theorem excluded_position_no_effect_witness :
    handle_position_state_changed demoConfig demoState 5 true 1000 =
      (demoState, []) :=
  excluded_position_no_effect demoConfig demoState 5 true 1000 (by decide)

/-! ### C7: the timeout handler is idempotent -/

/-- The disable handler is a no-op when its guard fails. -/
theorem disable_handler_noop (d : DeviceData) (i : Nat)
    (h : ¬(i < MAX_LAYERS ∧ (d.layers i).active = true)) :
    layer_disable_work_handler d i = (d, []) := by
  simp only [layer_disable_work_handler]
  rw [if_neg h]

/-- After the disable handler runs, slot `i` is inactive whenever its
guard held. -/
theorem disable_handler_inactive (d : DeviceData) (i : Nat)
    (hc : i < MAX_LAYERS ∧ (d.layers i).active = true) :
    ((layer_disable_work_handler d i).1.layers i).active = false := by
  simp only [layer_disable_work_handler]
  rw [if_pos hc]
  simp [setLayer]

/-- C7: `layer_disable_work_handler` fired for a slot that is already
inactive changes no state and emits no effect, and firing it twice for
the same slot leaves the state after the second call identical to the
state after the first (the second call is a no-op). -/
theorem onTimeout_idempotent (d : DeviceData) (i : Nat) :
    ((d.layers i).active = false → layer_disable_work_handler d i = (d, [])) ∧
    layer_disable_work_handler (layer_disable_work_handler d i).1 i =
      ((layer_disable_work_handler d i).1, []) := by
  constructor
  · intro h
    exact disable_handler_noop d i (by simp [h])
  · by_cases hc : i < MAX_LAYERS ∧ (d.layers i).active = true
    · exact disable_handler_noop _ i (by simp [disable_handler_inactive d i hc])
    · rw [disable_handler_noop d i hc]
      exact disable_handler_noop d i hc

/-- Witness for C7: firing the handler for inactive slot 2 of the demo
state is a no-op. -/
theorem onTimeout_idempotent_witness :
    layer_disable_work_handler demoState 2 = (demoState, []) :=
  (onTimeout_idempotent demoState 2).1 (by decide)

/-! ### C3: non-excluded key events -/

/-- C3: a non-excluded key press updates `last_tap_time` to `now` and
tears down every currently active slot (accumulator 0, inactive, timer
cancelled, `deactivate` emitted for its layer), leaving inactive slots
untouched; a key release is a complete no-op. -/
theorem key_event_spec (cfg : Config) (d : DeviceData) (position : Nat)
    (now : Int) (hpos : position ∉ cfg.excluded_positions) :
    ((handle_position_state_changed cfg d position true now).1.last_tap_time
        = now) ∧
    (∀ i, i < MAX_LAYERS → (d.layers i).active = true →
      (handle_position_state_changed cfg d position true now).1.layers i =
        { accumulated_distance := 0, active := false, timerPending := false } ∧
      Effect.deactivate i ∈
        (handle_position_state_changed cfg d position true now).2) ∧
    (∀ i, (d.layers i).active = false →
      (handle_position_state_changed cfg d position true now).1.layers i =
        d.layers i) ∧
    handle_position_state_changed cfg d position false now = (d, []) := by
  refine ⟨?_, ?_, ?_, ?_⟩
  · simp only [handle_position_state_changed]
    rw [if_neg hpos]
    simp
  · intro i hi hact
    constructor
    · simp only [handle_position_state_changed]
      rw [if_neg hpos]
      simp [hi, hact]
    · simp only [handle_position_state_changed]
      rw [if_neg hpos]
      simp only [if_true]
      refine List.mem_filterMap.mpr ⟨i, List.mem_range.mpr hi, ?_⟩
      simp [hact]
  · intro i hact
    simp only [handle_position_state_changed]
    rw [if_neg hpos]
    simp [hact]
  · simp only [handle_position_state_changed]
    rw [if_neg hpos]
    simp

/-- Witness for C3: a press on non-excluded position 7 of the demo state
resets active slot 0 and emits its deactivation. -/
theorem key_event_spec_witness :
    (handle_position_state_changed demoConfig demoState 7 true 1000).1.layers 0 =
      { accumulated_distance := 0, active := false, timerPending := false } ∧
    Effect.deactivate 0 ∈
      (handle_position_state_changed demoConfig demoState 7 true 1000).2 :=
  (key_event_spec demoConfig demoState 7 1000 (by decide)).2.1 0 (by decide)
    (by decide)

/-! ### Motion-step characterization lemmas -/

theorem motionStep_gated (cfg : Config) (l p2 p3 : Nat) (d : DeviceData)
    (s : Sample) (hl : l < MAX_LAYERS)
    (hact : (d.layers l).active = false)
    (hidle : 0 < cfg.require_prior_idle_ms)
    (hlt : s.now - d.last_tap_time < cfg.require_prior_idle_ms) :
    motionStep cfg l p2 p3 d s = (d, []) := by
  have hl16 : l < 16 := hl
  have hl' : l % 256 = l := Nat.mod_eq_of_lt (by omega)
  simp only [motionStep, threshold_temp_layer_handle_event, MAX_LAYERS, hl']
  split_ifs with h1 h2 h3 <;> first | rfl | omega | simp_all

theorem motionStep_active_step (cfg : Config) (l p2 p3 : Nat) (d : DeviceData)
    (s : Sample) (hl : l < MAX_LAYERS)
    (hact : (d.layers l).active = true)
    (hcode : s.code = INPUT_REL_X ∨ s.code = INPUT_REL_Y) :
    motionStep cfg l p2 p3 d s = (withSlot d l (rearm p2 (d.layers l)), []) := by
  have hl16 : l < 16 := hl
  have hl' : l % 256 = l := Nat.mod_eq_of_lt (by omega)
  simp only [motionStep, threshold_temp_layer_handle_event, sampleEvent,
    withSlot, rearm, MAX_LAYERS, hl']
  split_ifs <;> first | rfl | omega | simp_all

theorem motionStep_inactive_hit (cfg : Config) (l p2 p3 : Nat) (d : DeviceData)
    (s : Sample) (hl : l < MAX_LAYERS)
    (hact : (d.layers l).active = false)
    (hgate : cfg.require_prior_idle_ms ≤ 0 ∨
      cfg.require_prior_idle_ms ≤ s.now - d.last_tap_time)
    (hcode : s.code = INPUT_REL_X ∨ s.code = INPUT_REL_Y)
    (hdx : d.pending_dx = 0) (hdy : d.pending_dy = 0)
    (hhit : toSigned32 p3 ≤ (d.layers l).accumulated_distance + sampleMag s) :
    motionStep cfg l p2 p3 d s =
      (withSlot d l (rearm p2 ⟨(d.layers l).accumulated_distance + sampleMag s, true, (d.layers l).timerPending⟩),
       [Effect.activate l]) := by
  have hl16 : l < 16 := hl
  have hl' : l % 256 = l := Nat.mod_eq_of_lt (by omega)
  simp only [motionStep, threshold_temp_layer_handle_event, sampleEvent,
    sampleMag, withSlot, rearm, MAX_LAYERS, INPUT_REL_X, INPUT_REL_Y, hl',
    hdx, hdy] at *
  split_ifs at * <;> first | rfl | omega | simp_all

theorem motionStep_inactive_miss (cfg : Config) (l p2 p3 : Nat) (d : DeviceData)
    (s : Sample) (hl : l < MAX_LAYERS)
    (hact : (d.layers l).active = false)
    (hgate : cfg.require_prior_idle_ms ≤ 0 ∨
      cfg.require_prior_idle_ms ≤ s.now - d.last_tap_time)
    (hcode : s.code = INPUT_REL_X ∨ s.code = INPUT_REL_Y)
    (hdx : d.pending_dx = 0) (hdy : d.pending_dy = 0)
    (hmiss : (d.layers l).accumulated_distance + sampleMag s < toSigned32 p3) :
    motionStep cfg l p2 p3 d s =
      (withSlot d l ⟨(d.layers l).accumulated_distance + sampleMag s, false, (d.layers l).timerPending⟩,
       []) := by
  have hl16 : l < 16 := hl
  have hl' : l % 256 = l := Nat.mod_eq_of_lt (by omega)
  simp only [motionStep, threshold_temp_layer_handle_event, sampleEvent,
    sampleMag, withSlot, MAX_LAYERS, INPUT_REL_X, INPUT_REL_Y, hl',
    hdx, hdy] at *
  split_ifs at * <;> first | rfl | omega | simp_all

/-! ### C5: idle gating -/

/-- C5: with `require_prior_idle_ms = R > 0`, a motion sample arriving at
an inactive slot strictly less than `R` ms after the last key press
neither accumulates nor activates (total no-op); one arriving at `R` ms
or later accumulates normally and activates exactly when the new total
reaches the threshold; and a sample arriving at an active slot is not
gated, so the timer refresh still applies even inside the idle window. -/
theorem idle_gate_spec (cfg : Config) (l p2 p3 : Nat) (d : DeviceData)
    (s : Sample) (hl : l < MAX_LAYERS)
    (hidle : 0 < cfg.require_prior_idle_ms) :
    ((d.layers l).active = false →
      s.now - d.last_tap_time < cfg.require_prior_idle_ms →
      motionStep cfg l p2 p3 d s = (d, [])) ∧
    ((d.layers l).active = false →
      cfg.require_prior_idle_ms ≤ s.now - d.last_tap_time →
      (s.code = INPUT_REL_X ∨ s.code = INPUT_REL_Y) →
      d.pending_dx = 0 → d.pending_dy = 0 →
      (((motionStep cfg l p2 p3 d s).1.layers l).accumulated_distance =
          (d.layers l).accumulated_distance + sampleMag s ∧
        (((motionStep cfg l p2 p3 d s).1.layers l).active = true ↔
          toSigned32 p3 ≤ (d.layers l).accumulated_distance + sampleMag s))) ∧
    ((d.layers l).active = true →
      (s.code = INPUT_REL_X ∨ s.code = INPUT_REL_Y) →
      0 < toSigned16 p2 →
      ((motionStep cfg l p2 p3 d s).1.layers l).timerPending = true) := by
  refine ⟨?_, ?_, ?_⟩
  · intro hact hlt
    exact motionStep_gated cfg l p2 p3 d s hl hact hidle hlt
  · intro hact hge hcode hdx hdy
    by_cases hhit : toSigned32 p3 ≤ (d.layers l).accumulated_distance + sampleMag s
    · rw [motionStep_inactive_hit cfg l p2 p3 d s hl hact (Or.inr hge) hcode hdx hdy hhit]
      constructor
      · simp [withSlot, rearm, setLayer]
        split_ifs <;> rfl
      · constructor
        · intro _
          exact hhit
        · intro _
          simp [withSlot, rearm, setLayer]
          split_ifs <;> rfl
    · rw [motionStep_inactive_miss cfg l p2 p3 d s hl hact (Or.inr hge) hcode hdx hdy
        (not_le.mp hhit)]
      refine ⟨by simp [withSlot, setLayer], ?_, fun h => absurd h hhit⟩
      intro h
      exact absurd h (by simp [withSlot, setLayer])
  · intro hact hcode ht
    rw [motionStep_active_step cfg l p2 p3 d s hl hact hcode]
    simp [withSlot, rearm, setLayer, hact, ht]

/-- Witness for C5: with a 200 ms idle requirement and last key press at
t = 100, a sample for inactive slot 2 at t = 250 (150 ms later) is a
no-op. -/
theorem idle_gate_spec_witness :
    motionStep demoConfig 2 500 100 demoState { code := 0, value := 60, now := 250 } =
      (demoState, []) :=
  (idle_gate_spec demoConfig 2 500 100 demoState
      { code := 0, value := 60, now := 250 } (by decide) (by decide)).1
    (by decide) (by decide)

/-! ### Supporting lemmas for the accumulation claims -/

theorem withSlot_layers_self (d : DeviceData) (l : Nat) (ld : LayerData) :
    (withSlot d l ld).layers l = ld := by
  simp [withSlot, setLayer]

theorem rearm_active (p2 : Nat) (ld : LayerData) :
    (rearm p2 ld).active = ld.active := by
  simp only [rearm]
  split_ifs <;> rfl

theorem rearm_acc (p2 : Nat) (ld : LayerData) :
    (rearm p2 ld).accumulated_distance = ld.accumulated_distance := by
  simp only [rearm]
  split_ifs <;> rfl

theorem magSum_zero (samples : List Sample) : magSum samples 0 = 0 := rfl

theorem magSum_succ (samples : List Sample) (k : Nat) (hk : k < samples.length) :
    magSum samples (k + 1) = magSum samples k + sampleMag samples[k] := by
  simp only [magSum]
  rw [List.take_succ, List.getElem?_eq_getElem hk, Option.toList_some,
    List.map_append, List.sum_append]
  simp

theorem reachedBy_mono (samples : List Sample) (T : Int) (k k' : Nat)
    (hk : k ≤ k') (h : reachedBy samples T k) : reachedBy samples T k' := by
  obtain ⟨j, h1, h2, h3⟩ := h
  exact ⟨j, h1, le_trans h2 hk, h3⟩

theorem reachedBy_succ_iff (samples : List Sample) (T : Int) (k : Nat) :
    reachedBy samples T (k + 1) ↔
      reachedBy samples T k ∨ T ≤ magSum samples (k + 1) := by
  constructor
  · rintro ⟨j, h1, h2, h3⟩
    rcases Nat.lt_or_ge j (k + 1) with hj | hj
    · exact Or.inl ⟨j, h1, by omega, h3⟩
    · have hj' : j = k + 1 := by omega
      subst hj'
      exact Or.inr h3
  · rintro (h | h)
    · exact reachedBy_mono samples T k (k + 1) (Nat.le_succ k) h
    · exact ⟨k + 1, by omega, le_refl _, h⟩

theorem not_reachedBy_zero (samples : List Sample) (T : Int) :
    ¬ reachedBy samples T 0 := by
  rintro ⟨j, h1, h2, -⟩
  omega

theorem runSamples_take_succ (cfg : Config) (l p2 p3 : Nat) (d : DeviceData)
    (samples : List Sample) (k : Nat) (hk : k < samples.length) :
    runSamples cfg l p2 p3 d (samples.take (k + 1)) =
      (motionStep cfg l p2 p3 (runSamples cfg l p2 p3 d (samples.take k))
        samples[k]).1 := by
  simp only [runSamples]
  rw [List.take_succ, List.getElem?_eq_getElem hk, List.foldl_append]
  rfl

theorem runSamples_inv (cfg : Config) (l p2 p3 : Nat) (d0 : DeviceData)
    (samples : List Sample) (hl : l < MAX_LAYERS)
    (h0 : (d0.layers l).active = false)
    (ha : (d0.layers l).accumulated_distance = 0)
    (hdx : d0.pending_dx = 0) (hdy : d0.pending_dy = 0)
    (hcode : ∀ s ∈ samples, s.code = INPUT_REL_X ∨ s.code = INPUT_REL_Y)
    (hgate : ∀ s ∈ samples, cfg.require_prior_idle_ms ≤ 0 ∨
      cfg.require_prior_idle_ms ≤ s.now - d0.last_tap_time) :
    ∀ k, k ≤ samples.length →
      (runSamples cfg l p2 p3 d0 (samples.take k)).pending_dx = 0 ∧
      (runSamples cfg l p2 p3 d0 (samples.take k)).pending_dy = 0 ∧
      (runSamples cfg l p2 p3 d0 (samples.take k)).last_tap_time =
        d0.last_tap_time ∧
      (reachedBy samples (toSigned32 p3) k →
        ((runSamples cfg l p2 p3 d0 (samples.take k)).layers l).active = true) ∧
      (¬ reachedBy samples (toSigned32 p3) k →
        ((runSamples cfg l p2 p3 d0 (samples.take k)).layers l).active = false ∧
        ((runSamples cfg l p2 p3 d0 (samples.take k)).layers l).accumulated_distance
          = magSum samples k) := by
  intro k
  induction k with
  | zero =>
    intro _
    simp only [List.take_zero]
    have hrun : runSamples cfg l p2 p3 d0 [] = d0 := rfl
    rw [hrun]
    exact ⟨hdx, hdy, rfl, fun h => absurd h (not_reachedBy_zero samples _),
      fun _ => ⟨h0, ha.trans (magSum_zero samples).symm⟩⟩
  | succ k ih =>
    intro hk1
    have hk : k < samples.length := by omega
    obtain ⟨ipdx, ipdy, iltt, iact, iinact⟩ := ih (by omega)
    set dk := runSamples cfg l p2 p3 d0 (samples.take k) with hdk
    have hstep := runSamples_take_succ cfg l p2 p3 d0 samples k hk
    rw [← hdk] at hstep
    have hmem : samples[k] ∈ samples := List.getElem_mem hk
    have hcodek := hcode samples[k] hmem
    have hgatek : cfg.require_prior_idle_ms ≤ 0 ∨
        cfg.require_prior_idle_ms ≤ samples[k].now - dk.last_tap_time := by
      rw [iltt]
      exact hgate samples[k] hmem
    by_cases hr : reachedBy samples (toSigned32 p3) k
    · have hactk := iact hr
      have hres := motionStep_active_step cfg l p2 p3 dk samples[k] hl hactk hcodek
      rw [hstep, hres]
      refine ⟨by simp [withSlot], by simp [withSlot], by simp [withSlot, iltt],
        ?_, ?_⟩
      · intro _
        simp [withSlot_layers_self, rearm_active, hactk]
      · intro hn
        exact absurd (reachedBy_mono samples _ k (k + 1) (Nat.le_succ k) hr) hn
    · obtain ⟨hinact, hacc⟩ := iinact hr
      by_cases hhit : toSigned32 p3 ≤
          (dk.layers l).accumulated_distance + sampleMag samples[k]
      · have hres := motionStep_inactive_hit cfg l p2 p3 dk samples[k] hl hinact
          hgatek hcodek ipdx ipdy hhit
        rw [hstep, hres]
        have hreach1 : reachedBy samples (toSigned32 p3) (k + 1) := by
          rw [reachedBy_succ_iff]
          right
          rw [magSum_succ samples k hk, ← hacc]
          exact hhit
        refine ⟨by simp [withSlot], by simp [withSlot], by simp [withSlot, iltt],
          ?_, ?_⟩
        · intro _
          simp [withSlot_layers_self, rearm_active]
        · intro hn
          exact absurd hreach1 hn
      · have hmiss : (dk.layers l).accumulated_distance + sampleMag samples[k] <
            toSigned32 p3 := not_le.mp hhit
        have hres := motionStep_inactive_miss cfg l p2 p3 dk samples[k] hl hinact
          hgatek hcodek ipdx ipdy hmiss
        rw [hstep, hres]
        have hnreach : ¬ reachedBy samples (toSigned32 p3) (k + 1) := by
          rw [reachedBy_succ_iff]
          rintro (h | h)
          · exact hr h
          · rw [magSum_succ samples k hk, ← hacc] at h
            omega
        refine ⟨by simp [withSlot], by simp [withSlot], by simp [withSlot, iltt],
          ?_, ?_⟩
        · intro h
          exact absurd h hnreach
        · intro _
          rw [magSum_succ samples k hk, ← hacc]
          simp [withSlot_layers_self]

theorem sampleMag_nonneg (s : Sample) : 0 ≤ sampleMag s :=
  calculate_distance_nonneg _ _

/-- C1: starting from an inactive slot with zero accumulator and cleared
pending buffer, over any motion-sample sequence whose samples all satisfy
the idle gate and with no intervening key press, the slot is active after
`k` samples exactly when some prefix sum of the per-sample approximate
magnitudes has reached the threshold; the activate effect is emitted
exactly on the first sample at which the running sum reaches the
threshold, and not before; and threshold 0 activates on the very first
sample. -/
theorem threshold_activation_spec (cfg : Config) (l p2 p3 : Nat)
    (d0 : DeviceData) (samples : List Sample) (hl : l < MAX_LAYERS)
    (h0 : (d0.layers l).active = false)
    (ha : (d0.layers l).accumulated_distance = 0)
    (hdx : d0.pending_dx = 0) (hdy : d0.pending_dy = 0)
    (hcode : ∀ s ∈ samples, s.code = INPUT_REL_X ∨ s.code = INPUT_REL_Y)
    (hgate : ∀ s ∈ samples, cfg.require_prior_idle_ms ≤ 0 ∨
      cfg.require_prior_idle_ms ≤ s.now - d0.last_tap_time) :
    (∀ k, k ≤ samples.length →
      (((runSamples cfg l p2 p3 d0 (samples.take k)).layers l).active = true ↔
        reachedBy samples (toSigned32 p3) k)) ∧
    (∀ k (hk : k < samples.length),
      (Effect.activate l ∈
          (motionStep cfg l p2 p3 (runSamples cfg l p2 p3 d0 (samples.take k))
            samples[k]).2 ↔
        (¬ reachedBy samples (toSigned32 p3) k ∧
          reachedBy samples (toSigned32 p3) (k + 1)))) ∧
    (toSigned32 p3 = 0 → 1 ≤ samples.length →
      ((runSamples cfg l p2 p3 d0 (samples.take 1)).layers l).active = true) := by
  have hinv := runSamples_inv cfg l p2 p3 d0 samples hl h0 ha hdx hdy hcode hgate
  have hiff : ∀ k, k ≤ samples.length →
      (((runSamples cfg l p2 p3 d0 (samples.take k)).layers l).active = true ↔
        reachedBy samples (toSigned32 p3) k) := by
    intro k hk
    obtain ⟨-, -, -, iact, iinact⟩ := hinv k hk
    constructor
    · intro hact
      by_contra hn
      rw [(iinact hn).1] at hact
      exact Bool.false_ne_true hact
    · exact iact
  refine ⟨hiff, ?_, ?_⟩
  · intro k hk
    obtain ⟨ipdx, ipdy, iltt, iact, iinact⟩ := hinv k (le_of_lt hk)
    have hmem : samples[k] ∈ samples := List.getElem_mem hk
    have hcodek := hcode samples[k] hmem
    have hgatek : cfg.require_prior_idle_ms ≤ 0 ∨
        cfg.require_prior_idle_ms ≤
          samples[k].now -
            (runSamples cfg l p2 p3 d0 (samples.take k)).last_tap_time := by
      rw [iltt]
      exact hgate samples[k] hmem
    by_cases hr : reachedBy samples (toSigned32 p3) k
    · rw [motionStep_active_step cfg l p2 p3 _ samples[k] hl (iact hr) hcodek]
      simp only [List.not_mem_nil]
      constructor
      · intro h
        exact absurd h (by simp)
      · rintro ⟨hn, -⟩
        exact absurd hr hn
    · obtain ⟨hinact, hacc⟩ := iinact hr
      by_cases hhit : toSigned32 p3 ≤
          ((runSamples cfg l p2 p3 d0 (samples.take k)).layers l).accumulated_distance
            + sampleMag samples[k]
      · rw [motionStep_inactive_hit cfg l p2 p3 _ samples[k] hl hinact hgatek
          hcodek ipdx ipdy hhit]
        have hreach1 : reachedBy samples (toSigned32 p3) (k + 1) := by
          rw [reachedBy_succ_iff]
          right
          rw [magSum_succ samples k hk, ← hacc]
          exact hhit
        simp only [List.mem_singleton]
        exact ⟨fun _ => ⟨hr, hreach1⟩, fun _ => trivial⟩
      · rw [motionStep_inactive_miss cfg l p2 p3 _ samples[k] hl hinact hgatek
          hcodek ipdx ipdy (not_le.mp hhit)]
        have hnreach : ¬ reachedBy samples (toSigned32 p3) (k + 1) := by
          rw [reachedBy_succ_iff]
          rintro (h | h)
          · exact hr h
          · rw [magSum_succ samples k hk, ← hacc] at h
            omega
        constructor
        · intro h
          exact absurd h (by simp)
        · rintro ⟨-, h⟩
          exact absurd h hnreach
  · intro hT hlen
    refine (hiff 1 hlen).mpr ⟨1, le_refl 1, le_refl 1, ?_⟩
    rw [hT, magSum_succ samples 0 hlen, magSum_zero]
    have := sampleMag_nonneg samples[0]
    omega

theorem threshold_activation_spec_witness :
    ((runSamples { require_prior_idle_ms := 0, excluded_positions := [] } 1 500 100
        threshold_temp_layer_init
        [{ code := 0, value := 60, now := 0 }, { code := 0, value := 50, now := 1 }]).layers 1).active
      = true :=
  ((threshold_activation_spec
      { require_prior_idle_ms := 0, excluded_positions := [] } 1 500 100
      threshold_temp_layer_init
      [{ code := 0, value := 60, now := 0 }, { code := 0, value := 50, now := 1 }]
      (by decide) (by decide) (by decide) (by decide) (by decide) (by decide)
      (by decide)).1 2 (by decide)).mpr ⟨2, by decide, by decide, by decide⟩

theorem motionStep_clears_pending (cfg : Config) (l p2 p3 : Nat)
    (d : DeviceData) (s : Sample) (hl : l < MAX_LAYERS)
    (hcode : s.code = INPUT_REL_X ∨ s.code = INPUT_REL_Y)
    (hng : (d.layers l).active = true ∨ cfg.require_prior_idle_ms ≤ 0 ∨
      cfg.require_prior_idle_ms ≤ s.now - d.last_tap_time) :
    (motionStep cfg l p2 p3 d s).1.pending_dx = 0 ∧
    (motionStep cfg l p2 p3 d s).1.pending_dy = 0 := by
  have hl16 : l < 16 := hl
  have hl' : l % 256 = l := Nat.mod_eq_of_lt (by omega)
  simp only [motionStep, threshold_temp_layer_handle_event, sampleEvent,
    MAX_LAYERS, hl']
  split_ifs with hA hB hC
  case _ => exact absurd hA (by omega)
  case _ =>
    obtain ⟨b1, b2, b3⟩ := hB
    rcases hng with h1 | h1 | h1
    · rw [h1] at b1
      exact absurd b1 (by simp)
    · exact absurd b2 (by omega)
    · exact absurd b3 (by omega)
  all_goals try simp
  all_goals exact (hC ⟨True.intro, hcode⟩).elim

theorem map_sampleMag_abs (samples : List Sample)
    (hcode : ∀ s ∈ samples, s.code = INPUT_REL_X ∨ s.code = INPUT_REL_Y) :
    samples.map sampleMag = samples.map (fun s => |s.value|) := by
  induction samples with
  | nil => rfl
  | cons s rest ih =>
    simp only [List.map_cons]
    have hs := hcode s (List.mem_cons_self s rest)
    have hmag : sampleMag s = |s.value| := by
      rcases hs with hx | hx <;>
        simp [sampleMag, hx, INPUT_REL_X, INPUT_REL_Y, calculate_distance_x,
          calculate_distance_y]
    rw [hmag, ih (fun t ht => hcode t (List.mem_cons_of_mem s ht))]

/-- C10: a per-axis sample contributes exactly the absolute value of its
own delta (the cleared other axis contributes 0 to the max + min/2
formula), so while the slot is inactive the accumulated distance equals
the running sum of absolute per-sample deltas; and every processed
motion call leaves the pending-axis buffer cleared. -/
theorem per_axis_accumulation (cfg : Config) (l p2 p3 : Nat)
    (d0 : DeviceData) (samples : List Sample) (hl : l < MAX_LAYERS)
    (h0 : (d0.layers l).active = false)
    (ha : (d0.layers l).accumulated_distance = 0)
    (hdx : d0.pending_dx = 0) (hdy : d0.pending_dy = 0)
    (hcode : ∀ s ∈ samples, s.code = INPUT_REL_X ∨ s.code = INPUT_REL_Y)
    (hgate : ∀ s ∈ samples, cfg.require_prior_idle_ms ≤ 0 ∨
      cfg.require_prior_idle_ms ≤ s.now - d0.last_tap_time) :
    (∀ s : Sample, (s.code = INPUT_REL_X ∨ s.code = INPUT_REL_Y) →
      sampleMag s = |s.value|) ∧
    (∀ k, k ≤ samples.length → ¬ reachedBy samples (toSigned32 p3) k →
      ((runSamples cfg l p2 p3 d0 (samples.take k)).layers l).accumulated_distance
        = ((samples.take k).map (fun s => |s.value|)).sum) ∧
    (∀ (d : DeviceData) (s : Sample),
      (s.code = INPUT_REL_X ∨ s.code = INPUT_REL_Y) →
      ((d.layers l).active = true ∨ cfg.require_prior_idle_ms ≤ 0 ∨
        cfg.require_prior_idle_ms ≤ s.now - d.last_tap_time) →
      (motionStep cfg l p2 p3 d s).1.pending_dx = 0 ∧
      (motionStep cfg l p2 p3 d s).1.pending_dy = 0) := by
  have hmag : ∀ s : Sample, (s.code = INPUT_REL_X ∨ s.code = INPUT_REL_Y) →
      sampleMag s = |s.value| := by
    intro s hs
    rcases hs with hx | hx <;>
      simp [sampleMag, hx, INPUT_REL_X, INPUT_REL_Y, calculate_distance_x,
        calculate_distance_y]
  refine ⟨hmag, ?_,
    fun d s hc hg => motionStep_clears_pending cfg l p2 p3 d s hl hc hg⟩
  intro k hk hnr
  obtain ⟨-, -, -, -, iinact⟩ :=
    runSamples_inv cfg l p2 p3 d0 samples hl h0 ha hdx hdy hcode hgate k hk
  rw [(iinact hnr).2]
  simp only [magSum]
  rw [map_sampleMag_abs (samples.take k)
    (fun s hs => hcode s (List.take_subset k samples hs))]

theorem per_axis_accumulation_witness :
    ((runSamples { require_prior_idle_ms := 0, excluded_positions := [] } 0 500
        100 threshold_temp_layer_init
        [{ code := 0, value := 60, now := 0 }]).layers 0).accumulated_distance
      = (([{ code := 0, value := 60, now := 0 }] : List Sample).map
          (fun s => |s.value|)).sum :=
  (per_axis_accumulation { require_prior_idle_ms := 0, excluded_positions := [] }
      0 500 100 threshold_temp_layer_init [{ code := 0, value := 60, now := 0 }]
      (by decide) (by decide) (by decide) (by decide) (by decide) (by decide)
      (by decide)).2.1 1 (by decide)
    (by
      rintro ⟨j, h1, h2, h3⟩
      have hj : j = 1 := by omega
      subst hj
      revert h3
      decide)

theorem setLayer_self (f : Nat → LayerData) (i : Nat) (v : LayerData) :
    setLayer f i v i = v := by
  simp [setLayer]

theorem setLayer_ne (f : Nat → LayerData) (i : Nat) (v : LayerData) (j : Nat)
    (h : j ≠ i) : setLayer f i v j = f j := by
  simp [setLayer, h]

theorem handle_event_gated_noop (cfg : Config) (d : DeviceData)
    (ev : InputEvent) (p1 p2 p3 : Nat) (now : Int)
    (hA : ¬ MAX_LAYERS ≤ p1 % 256)
    (hB : (d.layers (p1 % 256)).active = false ∧
      0 < cfg.require_prior_idle_ms ∧
      now - d.last_tap_time < cfg.require_prior_idle_ms) :
    threshold_temp_layer_handle_event cfg d ev p1 p2 p3 now = (d, []) := by
  simp only [threshold_temp_layer_handle_event]
  rw [if_neg hA, if_pos hB]

theorem handle_event_nonrel_noop (cfg : Config) (d : DeviceData)
    (ev : InputEvent) (p1 p2 p3 : Nat) (now : Int)
    (hA : ¬ MAX_LAYERS ≤ p1 % 256)
    (hB : ¬((d.layers (p1 % 256)).active = false ∧
      0 < cfg.require_prior_idle_ms ∧
      now - d.last_tap_time < cfg.require_prior_idle_ms))
    (hC : ¬(ev.type = INPUT_EV_REL ∧
      (ev.code = INPUT_REL_X ∨ ev.code = INPUT_REL_Y))) :
    threshold_temp_layer_handle_event cfg d ev p1 p2 p3 now = (d, []) := by
  simp only [threshold_temp_layer_handle_event]
  rw [if_neg hA, if_neg hB, if_neg hC]

theorem handle_event_rel_slot_eq (cfg : Config) (d : DeviceData)
    (ev : InputEvent) (p1 p2 p3 : Nat) (now : Int)
    (hA : ¬ MAX_LAYERS ≤ p1 % 256)
    (hB : ¬((d.layers (p1 % 256)).active = false ∧
      0 < cfg.require_prior_idle_ms ∧
      now - d.last_tap_time < cfg.require_prior_idle_ms))
    (hC : ev.type = INPUT_EV_REL ∧
      (ev.code = INPUT_REL_X ∨ ev.code = INPUT_REL_Y)) :
    (threshold_temp_layer_handle_event cfg d ev p1 p2 p3 now).1.layers =
      setLayer d.layers (p1 % 256)
        (rearm p2 (accumStep (toSigned32 p3) (d.layers (p1 % 256))
          (calculate_distance
            (if ev.code = INPUT_REL_X then ev.value else d.pending_dx)
            (if ev.code = INPUT_REL_Y then ev.value else d.pending_dy)))) := by
  simp only [threshold_temp_layer_handle_event, rearm, accumStep]
  rw [if_neg hA, if_neg hB, if_pos hC]
  split_ifs <;> rfl

theorem key_layers_char (cfg : Config) (d : DeviceData) (pos : Nat)
    (pr : Bool) (now : Int) (i : Nat) :
    (handle_position_state_changed cfg d pos pr now).1.layers i = d.layers i ∨
    ((d.layers i).active = true ∧
      (handle_position_state_changed cfg d pos pr now).1.layers i =
        { accumulated_distance := 0, active := false, timerPending := false }) := by
  by_cases h1 : pos ∈ cfg.excluded_positions
  · left
    rw [excluded_noop cfg d pos pr now h1]
  · cases pr with
    | false =>
      left
      simp only [handle_position_state_changed]
      rw [if_neg h1]
      simp
    | true =>
      simp only [handle_position_state_changed]
      rw [if_neg h1]
      by_cases h3 : i < MAX_LAYERS ∧ (d.layers i).active = true
      · right
        refine ⟨h3.2, ?_⟩
        simp [h3.1, h3.2]
      · left
        simp [h3]

theorem fire_layers_char (d : DeviceData) (s0 i : Nat) :
    (fireTimer d s0).1.layers i = d.layers i ∨
    ((d.layers i).active = true ∧
      (fireTimer d s0).1.layers i =
        { accumulated_distance := 0, active := false, timerPending := false }) ∨
    ((¬ i < MAX_LAYERS ∨ (d.layers i).active = false) ∧
      (fireTimer d s0).1.layers i =
        { accumulated_distance := (d.layers i).accumulated_distance,
          active := (d.layers i).active, timerPending := false }) := by
  by_cases hp : (d.layers s0).timerPending = true
  · simp only [fireTimer, layer_disable_work_handler]
    rw [if_pos hp]
    by_cases hi : i = s0
    · subst hi
      rw [setLayer_self]
      by_cases hg : i < MAX_LAYERS ∧ (d.layers i).active = true
      · rw [if_pos (by simpa [setLayer_self] using hg)]
        right; left
        exact ⟨hg.2, by simp [setLayer_self]⟩
      · rw [if_neg (by simpa [setLayer_self] using hg)]
        right; right
        refine ⟨?_, by simp [setLayer_self]⟩
        by_cases hlt : i < MAX_LAYERS
        · right
          rcases not_and_or.mp hg with h | h
          · exact absurd hlt h
          · revert h
            cases (d.layers i).active <;> simp
        · exact Or.inl hlt
    · by_cases hg : s0 < MAX_LAYERS ∧ (d.layers s0).active = true
      · rw [if_pos (by simpa [setLayer_self] using hg)]
        left
        simp [setLayer_ne _ _ _ _ hi]
      · rw [if_neg (by simpa [setLayer_self] using hg)]
        left
        simp [setLayer_ne _ _ _ _ hi]
  · simp only [fireTimer]
    rw [if_neg hp]
    left
    rfl

theorem accumStep_of_active (T : Int) (ld : LayerData) (m : Int)
    (h : ld.active = true) : accumStep T ld m = ld := by
  simp [accumStep, h]

theorem accumStep_acc_of_inactive (T : Int) (ld : LayerData) (m : Int)
    (h : ld.active = false) :
    (accumStep T ld m).accumulated_distance = ld.accumulated_distance + m := by
  simp only [accumStep, h]
  split_ifs <;> rfl

theorem stepOp_slotEvolution (cfg : Config) (tparam : Nat → Nat)
    (d : DeviceData) (op : Op) (i : Nat) :
    slotEvolution (d.layers i) ((stepOp cfg tparam d op).1.layers i) := by
  cases op with
  | motion p1 ev p3 now =>
    simp only [stepOp]
    by_cases hA : MAX_LAYERS ≤ p1 % 256
    · rw [handle_event_bad_layer cfg d ev p1 (tparam (p1 % 256)) p3 now hA]
      left
      rfl
    · by_cases hB : (d.layers (p1 % 256)).active = false ∧
          0 < cfg.require_prior_idle_ms ∧
          now - d.last_tap_time < cfg.require_prior_idle_ms
      · rw [handle_event_gated_noop cfg d ev p1 (tparam (p1 % 256)) p3 now hA hB]
        left
        rfl
      · by_cases hC : ev.type = INPUT_EV_REL ∧
            (ev.code = INPUT_REL_X ∨ ev.code = INPUT_REL_Y)
        · rw [handle_event_rel_slot_eq cfg d ev p1 (tparam (p1 % 256)) p3 now hA hB hC]
          by_cases hi : i = p1 % 256
          · subst hi
            rw [setLayer_self]
            by_cases hact : (d.layers (p1 % 256)).active = true
            · right; right; left
              rw [rearm_acc, rearm_active, accumStep_of_active _ _ _ hact]
              exact ⟨rfl, rfl⟩
            · have hf : (d.layers (p1 % 256)).active = false := by
                revert hact
                cases (d.layers (p1 % 256)).active <;> simp
              right; right; right
              refine ⟨hf,
                calculate_distance
                  (if ev.code = INPUT_REL_X then ev.value else d.pending_dx)
                  (if ev.code = INPUT_REL_Y then ev.value else d.pending_dy),
                calculate_distance_nonneg _ _, ?_⟩
              rw [rearm_acc, accumStep_acc_of_inactive _ _ _ hf]
          · rw [setLayer_ne _ _ _ _ hi]
            left
            rfl
        · rw [handle_event_nonrel_noop cfg d ev p1 (tparam (p1 % 256)) p3 now hA hB hC]
          left
          rfl
  | key pos pr now =>
    simp only [stepOp]
    rcases key_layers_char cfg d pos pr now i with h | ⟨h1, h2⟩
    · rw [h]
      left
      rfl
    · rw [h2]
      right; left
      exact ⟨h1, rfl⟩
  | fire s0 =>
    simp only [stepOp]
    rcases fire_layers_char d s0 i with h | ⟨h1, h2⟩ | ⟨-, h⟩
    · rw [h]
      left
      rfl
    · rw [h2]
      right; left
      exact ⟨h1, rfl⟩
    · rw [h]
      right; right; left
      exact ⟨rfl, rfl⟩

theorem slotEvolution_triple (old new : LayerData) (h : slotEvolution old new) :
    (old.active = true → new.active = false → new.accumulated_distance = 0) ∧
    (old.active = false → new.active = false →
      old.accumulated_distance ≤ new.accumulated_distance) ∧
    (old.active = true → new.active = true →
      new.accumulated_distance = old.accumulated_distance) := by
  rcases h with h | ⟨h1, h2⟩ | ⟨h1, h2⟩ | ⟨h1, m, hm, h2⟩
  · subst h
    refine ⟨?_, fun _ _ => le_refl _, fun _ _ => rfl⟩
    intro ha hb
    rw [ha] at hb
    exact absurd hb (by simp)
  · subst h2
    refine ⟨fun _ _ => rfl, ?_, ?_⟩
    · intro ha _
      rw [ha] at h1
      exact absurd h1 (by simp)
    · intro _ hb
      exact absurd hb (by simp)
  · refine ⟨?_, ?_, fun _ _ => h1⟩
    · intro ha hb
      rw [ha] at h2
      rw [h2] at hb
      exact absurd hb (by simp)
    · intro _ _
      exact le_of_eq h1.symm
  · refine ⟨?_, ?_, ?_⟩
    · intro ha _
      rw [ha] at h1
      exact absurd h1 (by simp)
    · intro _ _
      rw [h2]
      omega
    · intro ha _
      rw [ha] at h1
      exact absurd h1 (by simp)

/-- C8: across every operation (motion sample, key event, timer fire) and
every slot, the accumulator is exactly 0 immediately after an
active-to-inactive transition, is monotonically non-decreasing while the
slot stays inactive, and is untouched while the slot stays active. -/
theorem accumulator_reset_spec (cfg : Config) (tparam : Nat → Nat)
    (d : DeviceData) (op : Op) (i : Nat) :
    ((d.layers i).active = true →
      ((stepOp cfg tparam d op).1.layers i).active = false →
      ((stepOp cfg tparam d op).1.layers i).accumulated_distance = 0) ∧
    ((d.layers i).active = false →
      ((stepOp cfg tparam d op).1.layers i).active = false →
      (d.layers i).accumulated_distance ≤
        ((stepOp cfg tparam d op).1.layers i).accumulated_distance) ∧
    ((d.layers i).active = true →
      ((stepOp cfg tparam d op).1.layers i).active = true →
      ((stepOp cfg tparam d op).1.layers i).accumulated_distance =
        (d.layers i).accumulated_distance) :=
  slotEvolution_triple (d.layers i) ((stepOp cfg tparam d op).1.layers i)
    (stepOp_slotEvolution cfg tparam d op i)

/-- Witness for C8: a key press on position 7 deactivates active slot 0
of the demo state and leaves its accumulator at exactly 0. -/
theorem accumulator_reset_spec_witness :
    ((stepOp demoConfig (fun _ => 500) demoState (Op.key 7 true 1000)).1.layers 0).accumulated_distance
      = 0 :=
  (accumulator_reset_spec demoConfig (fun _ => 500) demoState
      (Op.key 7 true 1000) 0).1 (by decide) (by decide)

theorem rearm_accumStep_inv (T : Int) (p2 : Nat) (ld : LayerData) (m : Int)
    (hinv : ld.timerPending = true ↔ (ld.active = true ∧ 0 < toSigned16 p2)) :
    ((rearm p2 (accumStep T ld m)).timerPending = true ↔
      ((rearm p2 (accumStep T ld m)).active = true ∧ 0 < toSigned16 p2)) := by
  simp only [rearm, accumStep]
  split_ifs <;> simp_all

theorem key_timer_inv (cfg : Config) (tparam : Nat → Nat) (d : DeviceData)
    (pos : Nat) (pr : Bool) (now : Int) (hinv : TimerInv tparam d) :
    TimerInv tparam (handle_position_state_changed cfg d pos pr now).1 := by
  intro i hi
  rcases key_layers_char cfg d pos pr now i with h | ⟨-, h2⟩
  · rw [h]
    exact hinv i hi
  · rw [h2]
    simp

theorem fire_timer_inv (tparam : Nat → Nat) (d : DeviceData) (s0 : Nat)
    (hinv : TimerInv tparam d) : TimerInv tparam (fireTimer d s0).1 := by
  intro i hi
  rcases fire_layers_char d s0 i with h | ⟨-, h2⟩ | ⟨h0, h⟩
  · rw [h]
    exact hinv i hi
  · rw [h2]
    simp
  · rw [h]
    rcases h0 with h0 | h0
    · exact absurd hi h0
    · simp [h0]

theorem handle_event_timer_inv (cfg : Config) (tparam : Nat → Nat)
    (d : DeviceData) (ev : InputEvent) (p1 p3 : Nat) (now : Int)
    (hinv : TimerInv tparam d) :
    TimerInv tparam
      (threshold_temp_layer_handle_event cfg d ev p1 (tparam (p1 % 256)) p3
        now).1 := by
  by_cases hA : MAX_LAYERS ≤ p1 % 256
  · rw [handle_event_bad_layer cfg d ev p1 (tparam (p1 % 256)) p3 now hA]
    exact hinv
  · by_cases hB : (d.layers (p1 % 256)).active = false ∧
        0 < cfg.require_prior_idle_ms ∧
        now - d.last_tap_time < cfg.require_prior_idle_ms
    · rw [handle_event_gated_noop cfg d ev p1 (tparam (p1 % 256)) p3 now hA hB]
      exact hinv
    · by_cases hC : ev.type = INPUT_EV_REL ∧
          (ev.code = INPUT_REL_X ∨ ev.code = INPUT_REL_Y)
      · intro i hi
        rw [handle_event_rel_slot_eq cfg d ev p1 (tparam (p1 % 256)) p3 now hA hB hC]
        by_cases hi' : i = p1 % 256
        · subst hi'
          rw [setLayer_self]
          exact rearm_accumStep_inv (toSigned32 p3) (tparam (p1 % 256))
            (d.layers (p1 % 256)) _ (hinv (p1 % 256) hi)
        · rw [setLayer_ne _ _ _ _ hi']
          exact hinv i hi
      · rw [handle_event_nonrel_noop cfg d ev p1 (tparam (p1 % 256)) p3 now hA hB hC]
        exact hinv

theorem stepOp_timer_inv (cfg : Config) (tparam : Nat → Nat) (d : DeviceData)
    (op : Op) (hinv : TimerInv tparam d) :
    TimerInv tparam (stepOp cfg tparam d op).1 := by
  cases op with
  | motion p1 ev p3 now =>
    exact handle_event_timer_inv cfg tparam d ev p1 p3 now hinv
  | key pos pr now => exact key_timer_inv cfg tparam d pos pr now hinv
  | fire s0 => exact fire_timer_inv tparam d s0 hinv

theorem runOps_timer_inv (cfg : Config) (tparam : Nat → Nat) (ops : List Op) :
    ∀ d, TimerInv tparam d → TimerInv tparam (runOps cfg tparam d ops) := by
  induction ops with
  | nil => exact fun d h => h
  | cons op rest ih =>
    intro d h
    exact ih (stepOp cfg tparam d op).1 (stepOp_timer_inv cfg tparam d op h)

/-- C9: in every state reachable from initialization by motion samples,
key events and timer fires, a slot's auto-deactivation timer is pending
exactly when the slot is active and its binding's timeout is positive. -/
theorem timer_iff_active (cfg : Config) (tparam : Nat → Nat) (ops : List Op) :
    TimerInv tparam (runOps cfg tparam threshold_temp_layer_init ops) := by
  apply runOps_timer_inv
  intro i hi
  simp [threshold_temp_layer_init]

/-- Witness for C9: after a motion sample that activates slot 0 with a
positive timeout parameter, the slot's timer is pending. -/
theorem timer_iff_active_witness :
    ((runOps { require_prior_idle_ms := 0, excluded_positions := [] }
        (fun _ => 500) threshold_temp_layer_init
        [Op.motion 0 { type := 2, code := 0, value := 60 } 0 0]).layers 0).timerPending
      = true :=
  (timer_iff_active { require_prior_idle_ms := 0, excluded_positions := [] }
      (fun _ => 500) [Op.motion 0 { type := 2, code := 0, value := 60 } 0 0] 0
      (by decide)).mpr ⟨by decide, by decide⟩
